import Mathlib

/-!
Verification of the Frank-Starling curve-fitting core of `app.py`.

The program fits the 4-parameter logistic curve
`A2 + (A1 - A2) / (1 + (x/x0)^p)` to clinical (volume, response) data,
derives a fit configuration (initial guess and box bounds) from the data
(`fit_frank_starling_curve`, lines 77-95), gates fitting on a minimum
sample count (line 79 and `main` lines 183-198), and summarises fitted
parameters into clinical metrics (`main` lines 227-228).

Embedding choices:
* Python float arithmetic is modelled by `ℝ` where the logistic model's
  real-exponent power is needed, and by `ℚ` for the fit-configuration,
  gating and summary arithmetic, so those definitions are executable.
* `scipy.optimize.curve_fit` is an external library routine, not part of
  the repository; the fitting wrapper is therefore parametrised by the
  optimizer routine, and bound-containment theorems assume scipy's
  documented contract that a returned solution lies inside the supplied
  box bounds.
* Python exceptions become an explicit error type: the two `ValueError`
  raise sites of `fit_frank_starling_curve` (lines 80 and 95) are the two
  constructors, carrying the message strings the source builds.
-/

/-- Python's `min` over a nonempty list, as used in `min(x)` / `min(y)`
(lines 83, 87).  The `[]` case is junk (Python would raise). -/
def listMin : List ℚ → ℚ
  | [] => 0
  | a :: as => as.foldl min a

/-- Python's `max` over a nonempty list (lines 83, 87-88). -/
def listMax : List ℚ → ℚ
  | [] => 0
  | a :: as => as.foldl max a

/-- `np.median` (line 83): sort, take the middle element for odd length,
the mean of the two middle elements for even length. -/
def median (l : List ℚ) : ℚ :=
  if l.length % 2 = 1 then (l.insertionSort (· ≤ ·)).getD (l.length / 2) 0
  else ((l.insertionSort (· ≤ ·)).getD (l.length / 2 - 1) 0 +
        (l.insertionSort (· ≤ ·)).getD (l.length / 2) 0) / 2

/-- A 4-vector of curve parameters, in the source's order
`[A1, A2, x0, p]` (baseline, plateau, inflection volume, steepness). -/
structure Params where
  A1 : ℚ
  A2 : ℚ
  x0 : ℚ
  p : ℚ
deriving DecidableEq

/-- The fit configuration built at lines 83-89: initial guess `p0` and
the lower/upper bound vectors passed to the optimizer. -/
structure FitConfig where
  guess : Params
  lower : Params
  upper : Params
deriving DecidableEq

/-- Lines 83-89 of the source:
`initial_guess = [min(y), max(y), np.median(x), 1.0]`,
`bounds = ([min(y)-abs(max(y)-min(y)), min(y)-abs(max(y)-min(y)), min(x)*0.1, 0.1],
           [max(y)+abs(max(y)-min(y)), max(y)+abs(max(y)-min(y)), max(x)*2, 10])`. -/
def fitConfig (x y : List ℚ) : FitConfig :=
  { guess := ⟨listMin y, listMax y, median x, 1⟩
    lower := ⟨listMin y - |listMax y - listMin y|, listMin y - |listMax y - listMin y|,
              listMin x * (1/10), 1/10⟩
    upper := ⟨listMax y + |listMax y - listMin y|, listMax y + |listMax y - listMin y|,
              listMax x * 2, 10⟩ }

/-- The FitConfigBuilder contract written exactly as §4.2 of the spec
states it: `initial_guess = [min(y), max(y), median(x), 1.0]`, with
`spread = |max(y) − min(y)|`,
`lower_bounds = [min(y) − spread, min(y) − spread, 0.1·min(x), 0.1]`,
`upper_bounds = [max(y) + spread, max(y) + spread, 2·max(x), 10]`. -/
def fitConfigSpec (x y : List ℚ) : FitConfig :=
  let spread := |listMax y - listMin y|
  { guess := ⟨listMin y, listMax y, median x, 1⟩
    lower := ⟨listMin y - spread, listMin y - spread, (1/10) * listMin x, 1/10⟩
    upper := ⟨listMax y + spread, listMax y + spread, 2 * listMax x, 10⟩ }

/-- The two failure modes of `fit_frank_starling_curve`, one per
`ValueError` raise site (lines 80 and 95).  `fitFailed` stores the
optimizer's underlying diagnostic string `e`. -/
inductive FitError where
  | insufficientData
  | fitFailed (detail : String)
deriving DecidableEq

/-- The message string each `ValueError` carries in the source. -/
def FitError.message : FitError → String
  | .insufficientData => "Need at least 5 data points"
  | .fitFailed detail => "Curve fitting failed: " ++ detail

/-- Shape of an optimizer routine standing for `scipy.optimize.curve_fit`
applied to `logistic_function`: it receives the data arrays, the initial
guess, the lower and upper bounds and the `maxfev` budget, and returns
fitted parameters or a diagnostic error string. -/
def OptRoutine : Type :=
  List ℚ → List ℚ → Params → Params → Params → ℕ → Except String Params

/-- `fit_frank_starling_curve` (lines 77-95), parametrised by the
optimizer standing for `scipy.optimize.curve_fit`: reject fewer than 5
points with the fixed-message error, otherwise build the configuration,
run the optimizer with `maxfev=5000`, and wrap any optimizer exception
`e` as `ValueError("Curve fitting failed: " + str(e))`. -/
def fit_frank_starling_curve (opt : OptRoutine) (x y : List ℚ) : Except FitError Params :=
  if x.length < 5 then .error .insufficientData
  else
    match opt x y (fitConfig x y).guess (fitConfig x y).lower (fitConfig x y).upper 5000 with
    | .ok ps => .ok ps
    | .error e => .error (.fitFailed e)

/-- Modelled from the spec: `SufficiencyGate.is_fittable(n) = n ≥ 5`
(§4.4).  The source has no named gate function; it inlines the test
`len(x) < 5` in `fit_frank_starling_curve` (line 79) and in `main`
(line 185). -/
def is_fittable (n : ℕ) : Bool := decide (5 ≤ n)

/-- The branching of `main` (lines 183-198): with `n = 0` show an info
message, with `0 < n < 5` show a scatter plot, and only otherwise call
`fit_frank_starling_curve`.  Returns whether the fit is attempted. -/
def main_attempts_fit (n : ℕ) : Bool :=
  if n = 0 then false
  else if n < 5 then false
  else true

/-- Componentwise box-bound containment `lo[i] ≤ q[i] ≤ hi[i]` for all
four parameter indices. -/
def inBounds (lo hi q : Params) : Prop :=
  (lo.A1 ≤ q.A1 ∧ q.A1 ≤ hi.A1) ∧ (lo.A2 ≤ q.A2 ∧ q.A2 ≤ hi.A2) ∧
  (lo.x0 ≤ q.x0 ∧ q.x0 ≤ hi.x0) ∧ (lo.p ≤ q.p ∧ q.p ≤ hi.p)

instance (lo hi q : Params) : Decidable (inBounds lo hi q) := by
  unfold inBounds; infer_instance

/-- Clamp a value into `[lo, hi]`. -/
def clamp (lo hi v : ℚ) : ℚ := min (max lo v) hi

/-- Clamp a parameter vector componentwise into the box `[lo, hi]`. -/
def clampParams (lo hi p0 : Params) : Params :=
  ⟨clamp lo.A1 hi.A1 p0.A1, clamp lo.A2 hi.A2 p0.A2,
   clamp lo.x0 hi.x0 p0.x0, clamp lo.p hi.p p0.p⟩

/-- Modelled from the spec: a concrete instance of the bounded-optimizer
contract (§4.3) standing in for `scipy.optimize.curve_fit` — it returns
a point inside the supplied box when the clamped initial guess lies in
it, and a diagnostic error otherwise.  Used only to witness theorems
that are parametric in the optimizer. -/
def clampOpt : OptRoutine := fun _x _y p0 lo hi _maxfev =>
  if inBounds lo hi (clampParams lo hi p0) then .ok (clampParams lo hi p0)
  else .error ("infeasible bounds")

/-- The three-tier preload sensitivity category of `main` line 228. -/
inductive Sensitivity where
  | Low
  | Moderate
  | High
deriving DecidableEq

/-- The clinical summary derived in `main` lines 227-228. -/
structure ClinicalSummary where
  cardiac_reserve : ℚ
  sensitivity_category : Sensitivity
deriving DecidableEq

/-- `main` lines 227-228:
`cardiac_reserve = params[1] - params[0]` and
`preload_sensitivity = 'High' if params[3] > 1.5 else 'Moderate' if params[3] > 0.8 else 'Low'`. -/
def summarize (ps : Params) : ClinicalSummary :=
  { cardiac_reserve := ps.A2 - ps.A1
    sensitivity_category :=
      if ps.p > 3/2 then .High else if ps.p > 4/5 then .Moderate else .Low }

/-- `logistic_function` (lines 28-30): `A2 + (A1 - A2) / (1 + (x/x0)**p)`,
with `**` the real power. -/
noncomputable def logistic_function (x A1 A2 x0 p : ℝ) : ℝ :=
  A2 + (A1 - A2) / (1 + (x / x0) ^ p)

/-- `logistic_function` applied to a NumPy array: the `+`, `-`, `/` and
`**` operations broadcast elementwise, so the call maps the scalar
function over the sequence. -/
noncomputable def logistic_function_vec (xs : List ℝ) (A1 A2 x0 p : ℝ) : List ℝ :=
  xs.map (fun x => logistic_function x A1 A2 x0 p)

lemma foldl_min_le_init (l : List ℚ) (acc : ℚ) : l.foldl min acc ≤ acc := by
  induction l generalizing acc with
  | nil => simp
  | cons b bs ih =>
    calc bs.foldl min (min acc b) ≤ min acc b := ih _
    _ ≤ acc := min_le_left _ _

lemma foldl_min_le_mem (l : List ℚ) (acc a : ℚ) (h : a ∈ l) : l.foldl min acc ≤ a := by
  induction l generalizing acc with
  | nil => cases h
  | cons b bs ih =>
    rcases List.mem_cons.mp h with rfl | hmem
    · calc bs.foldl min (min acc a) ≤ min acc a := foldl_min_le_init _ _
      _ ≤ a := min_le_right _ _
    · exact ih _ hmem

lemma foldl_min_mem (l : List ℚ) (acc : ℚ) : l.foldl min acc ∈ acc :: l := by
  induction l generalizing acc with
  | nil => simp
  | cons b bs ih =>
    have h2 := ih (min acc b)
    rcases List.mem_cons.mp h2 with heq | hmem
    · show List.foldl min (min acc b) bs ∈ acc :: b :: bs
      rw [heq]
      rcases min_choice acc b with hc | hc <;> rw [hc]
      · exact List.mem_cons_self _ _
      · exact List.mem_cons_of_mem _ (List.mem_cons_self _ _)
    · show List.foldl min (min acc b) bs ∈ acc :: b :: bs
      exact List.mem_cons_of_mem _ (List.mem_cons_of_mem _ hmem)

lemma listMin_le_mem {l : List ℚ} {a : ℚ} (h : a ∈ l) : listMin l ≤ a := by
  cases l with
  | nil => cases h
  | cons b bs =>
    rcases List.mem_cons.mp h with rfl | hmem
    · exact foldl_min_le_init bs a
    · exact foldl_min_le_mem bs b a hmem

lemma listMin_mem {l : List ℚ} (h : l ≠ []) : listMin l ∈ l := by
  cases l with
  | nil => exact absurd rfl h
  | cons b bs =>
    have := foldl_min_mem bs b
    simpa [listMin] using this

lemma le_foldl_max_init (l : List ℚ) (acc : ℚ) : acc ≤ l.foldl max acc := by
  induction l generalizing acc with
  | nil => simp
  | cons b bs ih =>
    calc acc ≤ max acc b := le_max_left _ _
    _ ≤ bs.foldl max (max acc b) := ih _

lemma le_foldl_max_mem (l : List ℚ) (acc a : ℚ) (h : a ∈ l) : a ≤ l.foldl max acc := by
  induction l generalizing acc with
  | nil => cases h
  | cons b bs ih =>
    rcases List.mem_cons.mp h with rfl | hmem
    · calc a ≤ max acc a := le_max_right _ _
      _ ≤ bs.foldl max (max acc a) := le_foldl_max_init _ _
    · exact ih _ hmem

lemma le_listMax_mem {l : List ℚ} {a : ℚ} (h : a ∈ l) : a ≤ listMax l := by
  cases l with
  | nil => cases h
  | cons b bs =>
    rcases List.mem_cons.mp h with rfl | hmem
    · exact le_foldl_max_init bs a
    · exact le_foldl_max_mem bs b a hmem

lemma foldl_max_mem (l : List ℚ) (acc : ℚ) : l.foldl max acc ∈ acc :: l := by
  induction l generalizing acc with
  | nil => simp
  | cons b bs ih =>
    have h2 := ih (max acc b)
    rcases List.mem_cons.mp h2 with heq | hmem
    · show List.foldl max (max acc b) bs ∈ acc :: b :: bs
      rw [heq]
      rcases max_choice acc b with hc | hc <;> rw [hc]
      · exact List.mem_cons_self _ _
      · exact List.mem_cons_of_mem _ (List.mem_cons_self _ _)
    · show List.foldl max (max acc b) bs ∈ acc :: b :: bs
      exact List.mem_cons_of_mem _ (List.mem_cons_of_mem _ hmem)

lemma listMax_mem {l : List ℚ} (h : l ≠ []) : listMax l ∈ l := by
  cases l with
  | nil => exact absurd rfl h
  | cons b bs =>
    have := foldl_max_mem bs b
    simpa [listMax] using this

lemma listMin_le_listMax {l : List ℚ} (h : l ≠ []) : listMin l ≤ listMax l :=
  le_trans (listMin_le_mem (listMax_mem h)) (le_refl _)

lemma sorted_getD_bounds {l : List ℚ} (h : l ≠ []) {i : ℕ}
    (hi : i < (l.insertionSort (· ≤ ·)).length) :
    listMin l ≤ (l.insertionSort (· ≤ ·)).getD i 0 ∧
      (l.insertionSort (· ≤ ·)).getD i 0 ≤ listMax l := by
  rw [List.getD_eq_getElem _ 0 hi]
  have hmem : (l.insertionSort (· ≤ ·))[i] ∈ l :=
    (List.mem_insertionSort _).mp (List.getElem_mem hi)
  exact ⟨listMin_le_mem hmem, le_listMax_mem hmem⟩

lemma median_bounds {l : List ℚ} (h : l ≠ []) :
    listMin l ≤ median l ∧ median l ≤ listMax l := by
  have hpos : 0 < l.length := List.length_pos.mpr h
  have hlen : (l.insertionSort (· ≤ ·)).length = l.length :=
    List.length_insertionSort _ _
  have hi2 : l.length / 2 < (l.insertionSort (· ≤ ·)).length := by
    rw [hlen]; exact Nat.div_lt_self hpos one_lt_two
  have hi1 : l.length / 2 - 1 < (l.insertionSort (· ≤ ·)).length :=
    lt_of_le_of_lt (Nat.sub_le _ _) hi2
  obtain ⟨ha1, ha2⟩ := sorted_getD_bounds h hi1
  obtain ⟨hb1, hb2⟩ := sorted_getD_bounds h hi2
  unfold median
  by_cases hodd : l.length % 2 = 1
  · rw [if_pos hodd]
    exact ⟨hb1, hb2⟩
  · rw [if_neg hodd]
    exact ⟨by linarith, by linarith⟩

lemma listMin_eq_of_const {l : List ℚ} {c : ℚ} (h : l ≠ []) (hc : ∀ a ∈ l, a = c) :
    listMin l = c :=
  hc _ (listMin_mem h)

lemma listMax_eq_of_const {l : List ℚ} {c : ℚ} (h : l ≠ []) (hc : ∀ a ∈ l, a = c) :
    listMax l = c :=
  hc _ (listMax_mem h)

lemma clampOpt_ok_inBounds (x y : List ℚ) (p0 lo hi : Params) (fev : ℕ) (ps : Params)
    (h : clampOpt x y p0 lo hi fev = .ok ps) : inBounds lo hi ps := by
  unfold clampOpt at h
  split_ifs at h with hc
  injection h with h2
  rw [← h2]
  exact hc

lemma fitFailed_message_ne_insufficient (d : String) :
    "Curve fitting failed: " ++ d ≠ "Need at least 5 data points" := by
  intro h
  have h2 := congrArg String.data h
  simp [String.data_append] at h2

/-- C1: `logistic_function` returns exactly `A2 + (A1 − A2)/(1 + (x/x0)^p)`
for every scalar `x > 0` with `x0 ≠ 0`, and its NumPy-broadcast
application to an ordered sequence of x values is the same-shaped
sequence of elementwise results. -/
theorem C1_logistic_model_formula_and_vectorized
    (x A1 A2 x0 p : ℝ) (hx : 0 < x) (hx0 : x0 ≠ 0) (xs : List ℝ) :
    logistic_function x A1 A2 x0 p = A2 + (A1 - A2) / (1 + (x / x0) ^ p) ∧
    (logistic_function_vec xs A1 A2 x0 p).length = xs.length ∧
    ∀ i (hi : i < xs.length),
      (logistic_function_vec xs A1 A2 x0 p).getD i 0 =
        logistic_function (xs.getD i 0) A1 A2 x0 p := by
  refine ⟨rfl, by simp [logistic_function_vec], ?_⟩
  intro i hi
  have hlen : i < (logistic_function_vec xs A1 A2 x0 p).length := by
    simpa [logistic_function_vec] using hi
  rw [List.getD_eq_getElem _ 0 hlen, List.getD_eq_getElem _ 0 hi]
  simp [logistic_function_vec]

/-- Witness for C1 at `x = 1`, `A1 = 0`, `A2 = 1`, `x0 = 1`, `p = 1`,
`xs = [1, 2]`. -/
theorem C1_logistic_model_formula_and_vectorized_witness :
    logistic_function 1 0 1 1 1 = 1 + (0 - 1) / (1 + ((1:ℝ) / 1) ^ (1:ℝ)) ∧
    (logistic_function_vec [1, 2] 0 1 1 1).length = 2 := by
  have h := C1_logistic_model_formula_and_vectorized 1 0 1 1 1 (by norm_num)
    (by norm_num) [1, 2]
  exact ⟨h.1, by simpa using h.2.1⟩

/-- C9: for fixed parameters with `p > 0`, `x0 > 0` and `A1 ≠ A2`, the
logistic model is monotonic over `x > 0`: strictly increasing when
`A2 > A1` and strictly decreasing when `A2 < A1`. -/
theorem C9_logistic_model_monotone (A1 A2 x0 p x1 x2 : ℝ)
    (hp : 0 < p) (hx0 : 0 < x0) (hx1 : 0 < x1) (h12 : x1 < x2) :
    (A1 < A2 → logistic_function x1 A1 A2 x0 p < logistic_function x2 A1 A2 x0 p) ∧
    (A2 < A1 → logistic_function x2 A1 A2 x0 p < logistic_function x1 A1 A2 x0 p) := by
  have hb1 : 0 < x1 / x0 := div_pos hx1 hx0
  have hlt : x1 / x0 < x2 / x0 := (div_lt_div_iff_of_pos_right hx0).mpr h12
  have hr : (x1 / x0) ^ p < (x2 / x0) ^ p := Real.rpow_lt_rpow (le_of_lt hb1) hlt hp
  have hp1 : 0 < (x1 / x0) ^ p := Real.rpow_pos_of_pos hb1 p
  have hp2 : 0 < (x2 / x0) ^ p := Real.rpow_pos_of_pos (lt_trans hb1 hlt) p
  have hd1 : 0 < 1 + (x1 / x0) ^ p := by linarith
  have hd2 : 0 < 1 + (x2 / x0) ^ p := by linarith
  unfold logistic_function
  constructor
  · intro hA
    have hneg : A1 - A2 < 0 := by linarith
    have key : (A1 - A2) / (1 + (x1 / x0) ^ p) < (A1 - A2) / (1 + (x2 / x0) ^ p) := by
      rw [div_lt_div_iff₀ hd1 hd2]
      nlinarith [mul_lt_mul_of_neg_left hr hneg]
    linarith
  · intro hA
    have hpos : 0 < A1 - A2 := by linarith
    have key : (A1 - A2) / (1 + (x2 / x0) ^ p) < (A1 - A2) / (1 + (x1 / x0) ^ p) := by
      rw [div_lt_div_iff₀ hd2 hd1]
      nlinarith [mul_lt_mul_of_pos_left hr hpos]
    linarith

/-- Witness for C9 at `A1 = 0`, `A2 = 1`, `x0 = 1`, `p = 1`, `x1 = 1`,
`x2 = 2`. -/
theorem C9_logistic_model_monotone_witness :
    ((0:ℝ) < 1 → logistic_function 1 0 1 1 1 < logistic_function 2 0 1 1 1) ∧
    ((1:ℝ) < 0 → logistic_function 2 0 1 1 1 < logistic_function 1 0 1 1 1) :=
  C9_logistic_model_monotone 0 1 1 1 1 2 (by norm_num) (by norm_num)
    (by norm_num) (by norm_num)

/-- C5: `summarize` returns `cardiac_reserve = A2 − A1` unclamped, and
the sensitivity category is High iff `p > 1.5`, Moderate iff
`0.8 < p ≤ 1.5`, and Low iff `p ≤ 0.8`. -/
theorem C5_summarize_reserve_and_category (ps : Params) :
    (summarize ps).cardiac_reserve = ps.A2 - ps.A1 ∧
    ((summarize ps).sensitivity_category = .High ↔ 3/2 < ps.p) ∧
    ((summarize ps).sensitivity_category = .Moderate ↔ 4/5 < ps.p ∧ ps.p ≤ 3/2) ∧
    ((summarize ps).sensitivity_category = .Low ↔ ps.p ≤ 4/5) := by
  refine ⟨rfl, ?_, ?_, ?_⟩ <;>
    simp only [summarize] <;> split_ifs with h1 h2 <;>
    simp_all <;> linarith

/-- C2 counterexample: the insufficient-data error the source raises is
the fixed `ValueError("Need at least 5 data points")`; datasets with 2
and with 1 clean samples produce literally identical errors, so the
raised error does not carry the actual count `n`. -/
theorem C2_counterexample_error_carries_no_actual_count :
    fit_frank_starling_curve clampOpt [75, 150] [2, 5] = .error .insufficientData ∧
    fit_frank_starling_curve clampOpt [75] [2] = .error .insufficientData ∧
    fit_frank_starling_curve clampOpt [75, 150] [2, 5] =
      fit_frank_starling_curve clampOpt [75] [2] ∧
    FitError.insufficientData.message = "Need at least 5 data points" :=
  ⟨rfl, rfl, rfl, rfl⟩

/-- C2 (amended): `is_fittable n` is true exactly when `n ≥ 5`, `main`
attempts the fit under exactly the same condition, and
`fit_frank_starling_curve` raises the insufficient-data error (with its
fixed message naming the required count 5 but not the actual count)
exactly when the dataset has fewer than 5 samples — in particular never
for data that passed the gate. -/
theorem C2_gate_threshold_shared (n : ℕ) (opt : OptRoutine) (x y : List ℚ) :
    (is_fittable n = true ↔ 5 ≤ n) ∧
    main_attempts_fit n = is_fittable n ∧
    (fit_frank_starling_curve opt x y = .error .insufficientData ↔ x.length < 5) := by
  refine ⟨by simp [is_fittable], ?_, ?_⟩
  · unfold main_attempts_fit is_fittable
    split_ifs with h1 h2 <;> simp <;> omega
  · unfold fit_frank_starling_curve
    split_ifs with h
    · simp [h]
    · simp only [h, iff_false]
      cases opt x y (fitConfig x y).guess (fitConfig x y).lower (fitConfig x y).upper 5000 <;>
        simp

/-- C3: for any dataset with `len(x) = len(y) ≥ 1`, the fit configuration
the source builds equals the reference definition of the spec. -/
theorem C3_fit_config_matches_reference (x y : List ℚ)
    (hlen : x.length = y.length) (hne : 1 ≤ x.length) :
    fitConfig x y = fitConfigSpec x y := by
  unfold fitConfig fitConfigSpec
  simp [FitConfig.mk.injEq, Params.mk.injEq, mul_comm]

/-- Witness for C3 on the spec's concrete scenario 1 dataset. -/
theorem C3_fit_config_matches_reference_witness :
    ([75, 150, 200, 250, 300] : List ℚ).length = ([2, 5, 8, 9, 46/5] : List ℚ).length ∧
    fitConfig [75, 150, 200, 250, 300] [2, 5, 8, 9, 46/5] =
      fitConfigSpec [75, 150, 200, 250, 300] [2, 5, 8, 9, 46/5] :=
  ⟨rfl, C3_fit_config_matches_reference [75, 150, 200, 250, 300] [2, 5, 8, 9, 46/5]
    rfl (by decide)⟩

/-- C4: under the bounded-optimizer contract (scipy's documented
behavior that a returned solution lies within the supplied bounds),
`fit_frank_starling_curve` on ≥ 5 samples with non-degenerate spread
either returns parameters inside every constructed bound interval or
fails with the fit-failed error — never out-of-bound parameters. -/
theorem C4_fit_within_bounds_or_fit_failed (opt : OptRoutine)
    (hopt : ∀ x y p0 lo hi fev ps, opt x y p0 lo hi fev = .ok ps → inBounds lo hi ps)
    (x y : List ℚ) (h5 : 5 ≤ x.length) (hnd : listMin y < listMax y) :
    (∃ ps, fit_frank_starling_curve opt x y = .ok ps ∧
        inBounds (fitConfig x y).lower (fitConfig x y).upper ps) ∨
    (∃ e, fit_frank_starling_curve opt x y = .error (.fitFailed e)) := by
  unfold fit_frank_starling_curve
  rw [if_neg (by omega)]
  cases hres : opt x y (fitConfig x y).guess (fitConfig x y).lower (fitConfig x y).upper 5000 with
  | ok ps => exact Or.inl ⟨ps, rfl, hopt _ _ _ _ _ _ _ hres⟩
  | error e => exact Or.inr ⟨e, rfl⟩

/-- Witness for C4 on the spec's concrete scenario 1 dataset, with the
clamping instance of the bounded-optimizer contract. -/
theorem C4_fit_within_bounds_or_fit_failed_witness :
    (∃ ps, fit_frank_starling_curve clampOpt [75, 150, 200, 250, 300] [2, 5, 8, 9, 46/5] =
        .ok ps ∧
        inBounds (fitConfig [75, 150, 200, 250, 300] [2, 5, 8, 9, 46/5]).lower
          (fitConfig [75, 150, 200, 250, 300] [2, 5, 8, 9, 46/5]).upper ps) ∨
    (∃ e, fit_frank_starling_curve clampOpt [75, 150, 200, 250, 300] [2, 5, 8, 9, 46/5] =
        .error (.fitFailed e)) :=
  C4_fit_within_bounds_or_fit_failed clampOpt
    (fun x y p0 lo hi fev ps => clampOpt_ok_inBounds x y p0 lo hi fev ps)
    [75, 150, 200, 250, 300] [2, 5, 8, 9, 46/5] (by decide)
    (by norm_num [listMin, listMax, min_def, max_def])

/-- C8: any error of the optimization call is caught and re-signaled
uniformly as the fit-failed error carrying the underlying diagnostic in
its message, and that error is a different kind, with a different
message, from the insufficient-data error. -/
theorem C8_optimizer_errors_wrapped (opt : OptRoutine) (x y : List ℚ) (e : String)
    (h5 : ¬ x.length < 5)
    (he : opt x y (fitConfig x y).guess (fitConfig x y).lower (fitConfig x y).upper 5000 =
      .error e) :
    fit_frank_starling_curve opt x y = .error (.fitFailed e) ∧
    (FitError.fitFailed e).message = "Curve fitting failed: " ++ e ∧
    (∀ d, FitError.fitFailed d ≠ .insufficientData) ∧
    (∀ d, (FitError.fitFailed d).message ≠ FitError.insufficientData.message) := by
  refine ⟨?_, rfl, by intro d; simp, fun d => fitFailed_message_ne_insufficient d⟩
  unfold fit_frank_starling_curve
  rw [if_neg h5, he]

/-- Witness for C8: a five-sample dataset with an optimizer that reports
a diagnostic error. -/
theorem C8_optimizer_errors_wrapped_witness :
    fit_frank_starling_curve (fun _ _ _ _ _ _ => .error ("did not converge"))
      [75, 150, 200, 250, 300] [2, 5, 8, 9, 46/5] =
      .error (.fitFailed ("did not converge")) ∧
    (FitError.fitFailed ("did not converge")).message =
      "Curve fitting failed: " ++ "did not converge" := by
  have h := C8_optimizer_errors_wrapped (fun _ _ _ _ _ _ => .error ("did not converge"))
    [75, 150, 200, 250, 300] [2, 5, 8, 9, 46/5] ("did not converge") (by decide) rfl
  exact ⟨h.1, h.2.1⟩

/-- C6: for a non-degenerate dataset (the volumes of a dataset are
non-negative by the data model, `min(y) < max(y)`, equal lengths ≥ 1),
the constructed configuration satisfies
`lower[i] ≤ initial_guess[i] ≤ upper[i]` for every parameter index. -/
theorem C6_guess_within_constructed_bounds (x y : List ℚ)
    (hlen : x.length = y.length) (hne : 1 ≤ x.length)
    (hx : ∀ a ∈ x, (0:ℚ) ≤ a) (hnd : listMin y < listMax y) :
    inBounds (fitConfig x y).lower (fitConfig x y).upper (fitConfig x y).guess := by
  have hxne : x ≠ [] := List.length_pos.mp (by omega)
  have hminx : 0 ≤ listMin x := hx _ (listMin_mem hxne)
  have hminmax : listMin x ≤ listMax x := listMin_le_listMax hxne
  have habs : 0 ≤ |listMax y - listMin y| := abs_nonneg _
  obtain ⟨hm1, hm2⟩ := median_bounds hxne
  simp only [inBounds, fitConfig]
  refine ⟨⟨by linarith, by linarith⟩, ⟨by linarith, by linarith⟩,
    ⟨by linarith, by linarith⟩, ⟨by norm_num, by norm_num⟩⟩

/-- Witness for C6 on the spec's concrete scenario 1 dataset. -/
theorem C6_guess_within_constructed_bounds_witness :
    inBounds (fitConfig [75, 150, 200, 250, 300] [2, 5, 8, 9, 46/5]).lower
      (fitConfig [75, 150, 200, 250, 300] [2, 5, 8, 9, 46/5]).upper
      (fitConfig [75, 150, 200, 250, 300] [2, 5, 8, 9, 46/5]).guess :=
  C6_guess_within_constructed_bounds [75, 150, 200, 250, 300] [2, 5, 8, 9, 46/5]
    rfl (by decide) (by intro a ha; fin_cases ha <;> norm_num)
    (by norm_num [listMin, listMax, max_def, min_def])

/-- C7 counterexample: `x = 0` is an admissible non-negative volume (the
input widget even allows it, `min_value=0`), yet with it the constructed
lower bound for `x0` is `0.1·min(x) = 0`, not strictly positive, so the
claim fails as stated. -/
theorem C7_counterexample_zero_volume :
    (∀ a ∈ ([0, 150, 200, 250, 300] : List ℚ), 0 ≤ a) ∧
    ¬ (0 < (fitConfig [0, 150, 200, 250, 300] [2, 5, 8, 9, 10]).lower.x0) := by
  constructor
  · intro a ha; fin_cases ha <;> norm_num
  · norm_num [fitConfig, listMin, min_def]

/-- C7 (amended): for datasets whose x values are strictly positive
volumes, the constructed lower bound for `x0` is strictly positive, so
every `x0` admitted by the bounds is non-zero and the division `x / x0`
in `logistic_function` is never a division by zero. -/
theorem C7_x0_lower_bound_positive (x y : List ℚ)
    (hne : x ≠ []) (hx : ∀ a ∈ x, (0:ℚ) < a) :
    0 < (fitConfig x y).lower.x0 ∧
    ∀ q : ℚ, (fitConfig x y).lower.x0 ≤ q → ((q : ℝ) ≠ 0) := by
  have h1 : 0 < listMin x := hx _ (listMin_mem hne)
  have h2 : 0 < (fitConfig x y).lower.x0 := by
    show (0:ℚ) < listMin x * (1/10)
    linarith
  refine ⟨h2, fun q hq => ?_⟩
  have hq0 : 0 < q := lt_of_lt_of_le h2 hq
  have hqr : (0:ℝ) < (q:ℝ) := by exact_mod_cast hq0
  exact hqr.ne'

/-- Witness for C7 (amended) on the spec's concrete scenario 1 volumes. -/
theorem C7_x0_lower_bound_positive_witness :
    0 < (fitConfig [75, 150, 200, 250, 300] [2, 5, 8, 9, 46/5]).lower.x0 ∧
    (((15:ℚ)/2 : ℚ) : ℝ) ≠ 0 := by
  have h := C7_x0_lower_bound_positive [75, 150, 200, 250, 300] [2, 5, 8, 9, 46/5]
    (by simp) (by intro a ha; fin_cases ha <;> norm_num)
  exact ⟨h.1, h.2 (15/2) (by norm_num [fitConfig, listMin, min_def])⟩

/-- C10: for a dataset of at least 5 samples whose y values are all the
constant `c` (spread 0), the bounds still satisfy
`lower[i] ≤ guess[i] ≤ upper[i]` for every index, the A1/A2 lower and
upper bounds all collapse to `c`, and no degenerate-data error exists or
is signaled before the optimizer runs: the call always reaches the
optimization step, whose outcome alone determines the result. -/
theorem C10_constant_y_collapsed_bounds_reach_optimizer (opt : OptRoutine)
    (x y : List ℚ) (c : ℚ) (hlen : x.length = y.length) (h5 : 5 ≤ x.length)
    (hy : ∀ a ∈ y, a = c) (hx : ∀ a ∈ x, (0:ℚ) ≤ a) :
    inBounds (fitConfig x y).lower (fitConfig x y).upper (fitConfig x y).guess ∧
    (fitConfig x y).lower.A1 = c ∧ (fitConfig x y).upper.A1 = c ∧
    (fitConfig x y).lower.A2 = c ∧ (fitConfig x y).upper.A2 = c ∧
    fit_frank_starling_curve opt x y =
      (match opt x y (fitConfig x y).guess (fitConfig x y).lower
          (fitConfig x y).upper 5000 with
        | .ok ps => Except.ok ps
        | .error e => Except.error (.fitFailed e)) := by
  have hxne : x ≠ [] := List.length_pos.mp (by omega)
  have hyne : y ≠ [] := List.length_pos.mp (by omega)
  have hminy : listMin y = c := listMin_eq_of_const hyne hy
  have hmaxy : listMax y = c := listMax_eq_of_const hyne hy
  have hminx : 0 ≤ listMin x := hx _ (listMin_mem hxne)
  have hminmax : listMin x ≤ listMax x := listMin_le_listMax hxne
  obtain ⟨hm1, hm2⟩ := median_bounds hxne
  refine ⟨?_, ?_, ?_, ?_, ?_, ?_⟩
  · simp only [inBounds, fitConfig]
    rw [hminy, hmaxy, sub_self, abs_zero]
    refine ⟨⟨by linarith, by linarith⟩, ⟨by linarith, by linarith⟩,
      ⟨by linarith, by linarith⟩, ⟨by norm_num, by norm_num⟩⟩
  · show listMin y - |listMax y - listMin y| = c
    rw [hminy, hmaxy, sub_self, abs_zero, sub_zero]
  · show listMax y + |listMax y - listMin y| = c
    rw [hminy, hmaxy, sub_self, abs_zero, add_zero]
  · show listMin y - |listMax y - listMin y| = c
    rw [hminy, hmaxy, sub_self, abs_zero, sub_zero]
  · show listMax y + |listMax y - listMin y| = c
    rw [hminy, hmaxy, sub_self, abs_zero, add_zero]
  · unfold fit_frank_starling_curve
    rw [if_neg (by omega)]

/-- Witness for C10 on a 5-sample dataset with all responses equal to 5,
with the clamping optimizer instance. -/
theorem C10_constant_y_collapsed_bounds_reach_optimizer_witness :
    inBounds (fitConfig [75, 150, 200, 250, 300] [5, 5, 5, 5, 5]).lower
      (fitConfig [75, 150, 200, 250, 300] [5, 5, 5, 5, 5]).upper
      (fitConfig [75, 150, 200, 250, 300] [5, 5, 5, 5, 5]).guess ∧
    (fitConfig [75, 150, 200, 250, 300] [5, 5, 5, 5, 5]).lower.A1 = 5 ∧
    (fitConfig [75, 150, 200, 250, 300] [5, 5, 5, 5, 5]).upper.A1 = 5 := by
  have h := C10_constant_y_collapsed_bounds_reach_optimizer clampOpt
    [75, 150, 200, 250, 300] [5, 5, 5, 5, 5] 5 rfl (by decide)
    (by intro a ha; fin_cases ha <;> rfl) (by intro a ha; fin_cases ha <;> norm_num)
  exact ⟨h.1, h.2.1, h.2.2.1⟩
